import Mathlib

/-!
# Verification of the Interview Call Session Controller

A shallow embedding of the call-session controller of the
`ai-mock-interview` repository (`src/components/Agent.tsx`) and of the
feedback persistence action (`src/constants/index.ts`, `createFeedback`),
together with theorems settling the specified properties: status-machine
monotonicity, start guarding, transcript accumulation, termination side
effects, listener cleanup, and feedback-identifier stability.
-/

set_option maxHeartbeats 1000000

/-- Call status enum from `Agent.tsx` (`CallStatus`):
INACTIVE, CONNECTING, ACTIVE, FINISHED. -/
inductive CallStatus
  | INACTIVE
  | CONNECTING
  | ACTIVE
  | FINISHED
deriving DecidableEq, Repr

/-- Roles a saved message may carry (`SavedMessage.role` in `Agent.tsx`):
"user" | "system" | "assistant". -/
inductive Role
  | user
  | system
  | assistant
deriving DecidableEq, Repr

/-- A saved conversation message (`interface SavedMessage` in `Agent.tsx`). -/
structure SavedMessage where
  role : Role
  content : String
deriving DecidableEq, Repr

/-- A transport message event as consumed by `onMessage` in `Agent.tsx`:
`message.type`, `message.role`, `message.transcriptType`,
`message.transcript`. -/
structure Message where
  type : String
  role : Role
  transcriptType : String
  transcript : String
deriving DecidableEq, Repr

/-- The React component state of `Agent`: `callStatus`, `messages`,
`isSpeaking`, `lastMessage` (the four `useState` hooks). -/
structure AgentState where
  callStatus : CallStatus
  messages : List SavedMessage
  isSpeaking : Bool
  lastMessage : String
deriving DecidableEq, Repr

/-- The initial component state: `INACTIVE`, `[]`, `false`, `""`
(the `useState` initial values in `Agent.tsx`). -/
def initialState : AgentState :=
  { callStatus := CallStatus.INACTIVE
  , messages := []
  , isSpeaking := false
  , lastMessage := "" }

/-- `onCallStart` handler: `setCallStatus(CallStatus.ACTIVE)`. -/
def onCallStart (s : AgentState) : AgentState :=
  { s with callStatus := CallStatus.ACTIVE }

/-- `onCallEnd` handler: `setCallStatus(CallStatus.FINISHED)`. -/
def onCallEnd (s : AgentState) : AgentState :=
  { s with callStatus := CallStatus.FINISHED }

/-- `onMessage` handler: append `{role, content: transcript}` to `messages`
when `message.type === "transcript" && message.transcriptType === "final"`;
otherwise do nothing. -/
def onMessage (m : Message) (s : AgentState) : AgentState :=
  if m.type = "transcript" ∧ m.transcriptType = "final" then
    { s with messages := s.messages ++ [⟨m.role, m.transcript⟩] }
  else
    s

/-- `onSpeechStart` handler: `setIsSpeaking(true)` (plus a console log). -/
def onSpeechStart (s : AgentState) : AgentState :=
  { s with isSpeaking := true }

/-- `onSpeechEnd` handler: `setIsSpeaking(false)` (plus a console log). -/
def onSpeechEnd (s : AgentState) : AgentState :=
  { s with isSpeaking := false }

/-- `onError` handler: only logs, changes no state. -/
def onError (s : AgentState) : AgentState :=
  s

/-- The exposed actions and transport events that can hit one `Agent`
instance: the two UI actions (`handleCall`, `handleDisconnect`) and the six
subscribed transport events. -/
inductive Event
  | startCall
  | stopCall
  | callStart
  | callEnd
  | message (m : Message)
  | speechStart
  | speechEnd
  | errorEvt
deriving DecidableEq, Repr

/-- Effect of one event on the component state. `startCall` performs the
`setCallStatus(CallStatus.CONNECTING)` of `handleCall`; `stopCall` performs
the `setCallStatus(CallStatus.FINISHED)` of `handleDisconnect`; transport
events run the corresponding registered handler. -/
def stepA (s : AgentState) : Event → AgentState
  | Event.startCall => { s with callStatus := CallStatus.CONNECTING }
  | Event.stopCall => { s with callStatus := CallStatus.FINISHED }
  | Event.callStart => onCallStart s
  | Event.callEnd => onCallEnd s
  | Event.message m => onMessage m s
  | Event.speechStart => onSpeechStart s
  | Event.speechEnd => onSpeechEnd s
  | Event.errorEvt => onError s

/-- States reached after each event of a trace (initial state excluded). -/
def runStates (s : AgentState) : List Event → List AgentState
  | [] => []
  | e :: es => stepA s e :: runStates (stepA s e) es

/-- The status sequence observed along a trace, initial status included. -/
def statusTrace (s : AgentState) (es : List Event) : List CallStatus :=
  s.callStatus :: (runStates s es).map (fun t => t.callStatus)

/-- Position of a status along the intended forward order
Idle→Connecting→Active→Finished. -/
def rank : CallStatus → Nat
  | CallStatus.INACTIVE => 0
  | CallStatus.CONNECTING => 1
  | CallStatus.ACTIVE => 2
  | CallStatus.FINISHED => 3

/-- Whether the rendered UI exposes the action in the given state
(`Agent.tsx` render: the Call button is shown whenever
`callStatus !== "ACTIVE"`, the End button exactly when it is `ACTIVE`);
transport events are always deliverable. -/
def uiEnabled (s : AgentState) : Event → Bool
  | Event.startCall => s.callStatus != CallStatus.ACTIVE
  | Event.stopCall => s.callStatus == CallStatus.ACTIVE
  | _ => true

/-- A trace in which every UI action is clickable in the state where it
fires. -/
def uiTraceOK : AgentState → List Event → Bool
  | _, [] => true
  | s, e :: es => uiEnabled s e && uiTraceOK (stepA s e) es

/-- Transcriber block of the assistant configuration
(`src/constants/index.ts`, `interviewer.transcriber`). -/
structure TranscriberConfig where
  provider : String
  model : String
  language : String
deriving DecidableEq, Repr

/-- Voice block of the assistant configuration
(`src/constants/index.ts`, `interviewer.voice`). -/
structure VoiceConfig where
  provider : String
  voiceId : String
  stability : ℚ
  similarityBoost : ℚ
  speed : ℚ
  style : ℚ
  useSpeakerBoost : Bool
deriving DecidableEq, Repr

/-- The assistant configuration shape (`CreateAssistantDTO` as used in
`src/constants/index.ts`). The `firstMessage` greeting and the model system
prompt are long opaque natural-language strings the controller never
inspects; they are not reproduced here. -/
structure AssistantConfig where
  name : String
  transcriber : TranscriberConfig
  voiceCfg : VoiceConfig
  modelProvider : String
  modelName : String
deriving DecidableEq, Repr

/-- The `interviewer` persona configuration exported by
`src/constants/index.ts`. -/
def interviewer : AssistantConfig :=
  { name := "Interviewer"
  , transcriber := { provider := "deepgram", model := "nova-2", language := "en" }
  , voiceCfg :=
    { provider := "11labs"
    , voiceId := "sarah"
    , stability := (4 : ℚ) / 10
    , similarityBoost := (8 : ℚ) / 10
    , speed := (9 : ℚ) / 10
    , style := (5 : ℚ) / 10
    , useSpeakerBoost := true }
  , modelProvider := "openai"
  , modelName := "gpt-4" }

/-- What `vapi.start` is called with: either the workflow identifier from
the environment (generate branch) or the `interviewer` assistant
configuration (review branch). -/
inductive VapiTarget
  | workflow (id : String)
  | assistant (cfg : AssistantConfig)
deriving DecidableEq, Repr

/-- One recorded `vapi.start(target, { variableValues })` invocation. -/
structure OpenCall where
  target : VapiTarget
  variableValues : List (String × String)
deriving DecidableEq, Repr

/-- Component state together with the log of transport interactions:
every `vapi.start` call made and the number of `vapi.stop` calls. -/
structure SysState where
  agent : AgentState
  opens : List OpenCall
  stops : Nat
deriving DecidableEq, Repr

/-- The construction props of `Agent`
(`{userName, userId, interviewId, feedbackId, type, questions}`). -/
structure AgentProps where
  userName : String
  userId : String
  interviewId : String
  feedbackId : Option String
  type : String
  questions : Option (List String)
deriving DecidableEq, Repr

/-- The question formatting of `handleCall`: `formattedQuestions` starts as
`""`; when `questions` is present, each question is mapped to
`"- " ++ question` and the results are joined with `"\n"`. -/
def formattedQuestions (questions : Option (List String)) : String :=
  match questions with
  | none => ""
  | some qs => String.intercalate "\n" (qs.map (fun question => "- " ++ question))

/-- `handleCall` from `Agent.tsx`: unconditionally set status to
`CONNECTING`, then open the transport with the workflow identifier and
`{username, userid}` when `type === "generate"`, otherwise with the
`interviewer` configuration and `{questions: formattedQuestions}`. -/
def handleCall (props : AgentProps) (workflowId : String) (sys : SysState) : SysState :=
  let sys1 : SysState :=
    { sys with agent := { sys.agent with callStatus := CallStatus.CONNECTING } }
  if props.type = "generate" then
    { sys1 with opens := sys1.opens ++
        [ { target := VapiTarget.workflow workflowId
          , variableValues := [("username", props.userName), ("userid", props.userId)] } ] }
  else
    { sys1 with opens := sys1.opens ++
        [ { target := VapiTarget.assistant interviewer
          , variableValues := [("questions", formattedQuestions props.questions)] } ] }

/-- `handleDisconnect` from `Agent.tsx`: set status to `FINISHED` and call
`vapi.stop()`. -/
def handleDisconnect (sys : SysState) : SysState :=
  { sys with
      agent := { sys.agent with callStatus := CallStatus.FINISHED },
      stops := sys.stops + 1 }

/-- Result of the feedback submission gateway
(`createFeedback` return shape: `{ success, feedbackId? }`). -/
structure FeedbackResult where
  success : Bool
  feedbackId : Option String
deriving DecidableEq, Repr

/-- JavaScript truthiness of an optional string: `undefined` and `""` are
falsy, every other string is truthy. -/
def truthyStr (s : Option String) : Bool :=
  match s with
  | none => false
  | some t => t != ""

/-- The feedback route template `/interview/${interviewId}/feedback` pushed
by `handleGenerateFeedback` on success. -/
def feedbackRoute (interviewId : String) : String :=
  "/interview/" ++ interviewId ++ "/feedback"

/-- The navigation performed by `handleGenerateFeedback` in `Agent.tsx`
once the gateway result `{ success, feedbackId: id }` is available:
`router.push` of the feedback route when `success && id` (JS truthiness),
otherwise a logged failure and `router.push("/")`. -/
def handleGenerateFeedback (interviewId : String) (res : FeedbackResult) : String :=
  if res.success && truthyStr res.feedbackId then feedbackRoute interviewId
  else "/"

/-- One evaluation of the call-completion branch of the second `useEffect`
in `Agent.tsx`: `none` when `callStatus !== FINISHED`; otherwise the route
pushed paired with whether the gateway (`createFeedback`) was invoked.
`gw` is the opaque gateway, a function of the transcript passed to it. -/
def callCompletionEffect (type interviewId : String)
    (gw : List SavedMessage → FeedbackResult)
    (messages : List SavedMessage) (callStatus : CallStatus) :
    Option (String × Bool) :=
  if callStatus = CallStatus.FINISHED then
    if type = "generate" then some ("/", false)
    else some (handleGenerateFeedback interviewId (gw messages), true)
  else none

/-- The dependency snapshot the completion effect is keyed on: the
`messages` and `callStatus` entries of its dependency array (the remaining
dependencies are constant props for a mounted component). -/
def depsOf (s : AgentState) : List SavedMessage × CallStatus :=
  (s.messages, s.callStatus)

/-- Number of effect evaluations that hit the `FINISHED` branch, given the
snapshot at the previous evaluation: React re-runs the effect exactly when
the dependency snapshot changed. -/
def firesAux (prev : List SavedMessage × CallStatus) :
    List (List SavedMessage × CallStatus) → Nat
  | [] => 0
  | d :: ds =>
    if d = prev then firesAux prev ds
    else (if d.2 = CallStatus.FINISHED then 1 else 0) + firesAux d ds

/-- How many times the termination side effect of the completion effect
fires along a trace: the effect runs at mount and after every change of its
dependency snapshot, and performs the side effect whenever it observes
`callStatus = FINISHED`. -/
def sideEffectFires (s : AgentState) (es : List Event) : Nat :=
  (if (depsOf s).2 = CallStatus.FINISHED then 1 else 0) +
    firesAux (depsOf s) ((runStates s es).map depsOf)

/-- A trace in which no event delivered while the status is `FINISHED`
changes the completion effect's dependency snapshot (no late final
transcript, no late call-start/stop after the session ended). -/
def quietAfterFinishB : AgentState → List Event → Bool
  | _, [] => true
  | s, e :: es =>
    (s.callStatus != CallStatus.FINISHED || depsOf (stepA s e) == depsOf s) &&
      quietAfterFinishB (stepA s e) es

/-- Protocol guard for one event: `start` may only fire while the status
is `INACTIVE`, and the transport delivers `call-start` only before the
session has finished. -/
def protocolGuard (s : AgentState) : Event → Bool
  | Event.startCall => s.callStatus == CallStatus.INACTIVE
  | Event.callStart => s.callStatus != CallStatus.FINISHED
  | _ => true

/-- A trace that follows the intended session protocol at every step. -/
def protocolOKB : AgentState → List Event → Bool
  | _, [] => true
  | s, e :: es => protocolGuard s e && protocolOKB (stepA s e) es

/-- Identity of each closure registered on the voice SDK by the listener
`useEffect` of `Agent.tsx`. -/
inductive HandlerId
  | callStartH
  | callEndH
  | messageH
  | speechStartH
  | speechEndH
  | errorH
deriving DecidableEq, Repr

/-- The handler function each closure denotes (the handlers defined above,
keyed by identity). -/
def runHandler : HandlerId → Event → AgentState → AgentState
  | HandlerId.callStartH, Event.callStart, s => onCallStart s
  | HandlerId.callEndH, Event.callEnd, s => onCallEnd s
  | HandlerId.messageH, Event.message m, s => onMessage m s
  | HandlerId.speechStartH, Event.speechStart, s => onSpeechStart s
  | HandlerId.speechEndH, Event.speechEnd, s => onSpeechEnd s
  | HandlerId.errorH, Event.errorEvt, s => onError s
  | _, _, s => s

/-- Event-name key under which a transport event is emitted
("call-start", "call-end", "message", "speech-start", "speech-end",
"error"; UI actions are not bus events). -/
def eventName : Event → Option String
  | Event.callStart => some "call-start"
  | Event.callEnd => some "call-end"
  | Event.message _ => some "message"
  | Event.speechStart => some "speech-start"
  | Event.speechEnd => some "speech-end"
  | Event.errorEvt => some "error"
  | _ => none

/-- The SDK's listener table: ordered (event name, handler) registrations. -/
abbrev Bus : Type := List (String × HandlerId)

/-- `vapi.on(name, handler)`: register a listener. -/
def busOn (bus : Bus) (name : String) (h : HandlerId) : Bus :=
  bus ++ [(name, h)]

/-- `vapi.off(name, handler)`: remove the registrations of that exact
handler under that event name. -/
def busOff (bus : Bus) (name : String) (h : HandlerId) : Bus :=
  bus.filter (fun p => !(p.1 == name && p.2 == h))

/-- The setup phase of the listener `useEffect`: the six `vapi.on`
registrations, in source order. -/
def setupListeners (bus : Bus) : Bus :=
  busOn (busOn (busOn (busOn (busOn (busOn bus
    "call-start" HandlerId.callStartH)
    "call-end" HandlerId.callEndH)
    "message" HandlerId.messageH)
    "speech-start" HandlerId.speechStartH)
    "speech-end" HandlerId.speechEndH)
    "error" HandlerId.errorH

/-- The cleanup function returned by the listener `useEffect`: the six
`vapi.off` calls, in source order. -/
def cleanupListeners (bus : Bus) : Bus :=
  busOff (busOff (busOff (busOff (busOff (busOff bus
    "call-start" HandlerId.callStartH)
    "call-end" HandlerId.callEndH)
    "message" HandlerId.messageH)
    "speech-start" HandlerId.speechStartH)
    "speech-end" HandlerId.speechEndH)
    "error" HandlerId.errorH

/-- Delivering one transport event through the listener table: every
listener registered under the event's name runs, in registration order. -/
def dispatch (bus : Bus) (e : Event) (s : AgentState) : AgentState :=
  match eventName e with
  | none => s
  | some n => bus.foldl (fun st p => if p.1 == n then runHandler p.2 e st else st) s

/-- The parameters of `createFeedback`
(`{ interviewId, userId, transcript, feedbackId }`). -/
structure CreateFeedbackParams where
  interviewId : String
  userId : String
  transcript : List SavedMessage
  feedbackId : Option String
deriving DecidableEq, Repr

/-- The document reference chosen by `createFeedback`: when `feedbackId` is
truthy, `db.collection("feedback").doc(feedbackId)` whose `.id` is that
identifier; otherwise `db.collection("feedback").doc()` whose `.id` is a
store-generated fresh identifier (Firestore document-reference semantics,
modelled with the fresh identifier as a parameter). -/
def feedbackDocId (given : Option String) (freshId : String) : String :=
  match given with
  | some s => if s = "" then freshId else s
  | none => freshId

/-- `createFeedback` from the server action source: on any thrown error in
the try block (AI generation or store write), the catch returns
`{ success: false }`; otherwise the feedback document is written at the
chosen reference and `{ success: true, feedbackId: feedbackRef.id }` is
returned. `genError` says whether the try block threw; `freshId` is the
store-generated identifier used only when no truthy `feedbackId` was
passed. -/
def createFeedback (params : CreateFeedbackParams) (genError : Bool)
    (freshId : String) : FeedbackResult :=
  if genError then { success := false, feedbackId := none }
  else { success := true, feedbackId := some (feedbackDocId params.feedbackId freshId) }

/-- Whether a status sequence never moves backward along
Idle→Connecting→Active→Finished. -/
def statusMonotoneB : List CallStatus → Bool
  | [] => true
  | [_] => true
  | a :: b :: rest => (rank a ≤ rank b : Bool) && statusMonotoneB (b :: rest)

/-- Concrete review-mode props (any `type` other than `"generate"`). -/
def reviewProps : AgentProps :=
  { userName := "u"
  , userId := "uid"
  , interviewId := "i1"
  , feedbackId := none
  , type := "interview"
  , questions := some ["Tell me about yourself", "Why this role?"] }

/-- A concrete system state whose session status is `ACTIVE` with no
transport interaction logged yet. -/
def activeSys : SysState :=
  { agent := { initialState with callStatus := CallStatus.ACTIVE }
  , opens := []
  , stops := 0 }

lemma onMessage_final (m : Message) (s : AgentState)
    (h1 : m.type = "transcript") (h2 : m.transcriptType = "final") :
    onMessage m s = { s with messages := s.messages ++ [⟨m.role, m.transcript⟩] } := by
  unfold onMessage
  rw [if_pos ⟨h1, h2⟩]

lemma onMessage_skip (m : Message) (s : AgentState)
    (h : ¬(m.type = "transcript" ∧ m.transcriptType = "final")) :
    onMessage m s = s := by
  unfold onMessage
  rw [if_neg h]

lemma onMessage_callStatus (m : Message) (s : AgentState) :
    (onMessage m s).callStatus = s.callStatus := by
  unfold onMessage
  split <;> rfl

lemma rank_le_three (c : CallStatus) : rank c ≤ 3 := by
  cases c <;> simp [rank]

/-- **C3.** For every sequence of transport message events, exactly the
events with `type = "transcript"` and `transcriptType = "final"` are
appended to the transcript, in arrival order, with role and transcript
text preserved exactly; all other message events leave the transcript
unchanged. -/
theorem transcript_append_exact (ms : List Message) (s : AgentState) :
    (ms.foldl (fun st m => onMessage m st) s).messages =
      s.messages ++
        (ms.filter (fun m => m.type == "transcript" && m.transcriptType == "final")).map
          (fun m => { role := m.role, content := m.transcript }) := by
  induction ms generalizing s with
  | nil => simp
  | cons m rest ih =>
    simp only [List.foldl_cons, List.filter_cons]
    by_cases h : m.type = "transcript" ∧ m.transcriptType = "final"
    · obtain ⟨h1, h2⟩ := h
      rw [onMessage_final m s h1 h2, ih]
      simp [h1, h2]
    · have hb : (m.type == "transcript" && m.transcriptType == "final") = false := by
        rcases not_and_or.mp h with h1 | h1 <;> simp [h1]
      rw [onMessage_skip m s h, ih, hb]
      simp

/-- **C9.** The speech-start and speech-end handlers set `isSpeaking` to
`true` respectively `false` and change nothing else: status, transcript and
last displayed message are untouched. -/
theorem speech_events_frame (s : AgentState) :
    (onSpeechStart s).isSpeaking = true ∧
    (onSpeechEnd s).isSpeaking = false ∧
    (onSpeechStart s).callStatus = s.callStatus ∧
    (onSpeechStart s).messages = s.messages ∧
    (onSpeechStart s).lastMessage = s.lastMessage ∧
    (onSpeechEnd s).callStatus = s.callStatus ∧
    (onSpeechEnd s).messages = s.messages ∧
    (onSpeechEnd s).lastMessage = s.lastMessage :=
  ⟨rfl, rfl, rfl, rfl, rfl, rfl, rfl, rfl⟩

/-- **C6.** In generate mode, whenever the completion effect observes
status `FINISHED`, the feedback gateway is not invoked and the terminal
signal is the home route, whatever the gateway and transcript are. -/
theorem generate_finished_no_gateway (interviewId : String)
    (gw : List SavedMessage → FeedbackResult) (messages : List SavedMessage) :
    callCompletionEffect "generate" interviewId gw messages CallStatus.FINISHED =
      some ("/", false) := by
  simp [callCompletionEffect]

/-- **C10.** When `createFeedback` is given a (truthy) `feedbackId` and
completes with `success = true`, the returned `feedbackId` is exactly the
one passed in: the existing record is overwritten in place, no fresh
identifier is minted. -/
theorem createFeedback_id_stable (params : CreateFeedbackParams)
    (genError : Bool) (freshId fid : String)
    (hfid : params.feedbackId = some fid) (hne : fid ≠ "")
    (hs : (createFeedback params genError freshId).success = true) :
    (createFeedback params genError freshId).feedbackId = some fid := by
  cases genError with
  | true => simp [createFeedback] at hs
  | false => simp [createFeedback, feedbackDocId, hfid, hne]

/-- Witness for `createFeedback_id_stable` at a concrete call. -/
theorem createFeedback_id_stable_witness :
    (createFeedback
        { interviewId := "i1", userId := "u1", transcript := [], feedbackId := some "fb7" }
        false "fresh").feedbackId = some "fb7" :=
  createFeedback_id_stable
    { interviewId := "i1", userId := "u1", transcript := [], feedbackId := some "fb7" }
    false "fresh" "fb7" rfl (by decide) (by decide)

/-- **C8.** Listener cleanup: the teardown function removes every
subscription the setup phase registered (on any pre-existing listener
table), and once the table a fresh controller produced is torn down, no
transport event changes the component state. -/
theorem teardown_removes_all_listeners :
    (∀ bus : Bus, cleanupListeners (setupListeners bus) = cleanupListeners bus) ∧
    cleanupListeners (setupListeners []) = ([] : Bus) ∧
    (∀ (e : Event) (s : AgentState),
      dispatch (cleanupListeners (setupListeners [])) e s = s) := by
  refine ⟨?_, ?_, ?_⟩
  · intro bus
    simp [setupListeners, cleanupListeners, busOn, busOff, List.filter_append]
  · rfl
  · intro e s
    cases e <;> rfl

lemma feedbackRoute_ne_home (interviewId : String) : feedbackRoute interviewId ≠ "/" := by
  intro h
  have hl := congrArg String.length h
  simp [feedbackRoute, String.length_append] at hl
  have h1 : "/interview/".length = 11 := rfl
  have h2 : "/feedback".length = 9 := rfl
  have h3 : "/".length = 1 := rfl
  omega

/-- **C5.** In review mode the controller navigates to the feedback view
for the interview exactly when the gateway reports `success = true`
together with a truthy identifier; in every other outcome (failure,
missing or empty identifier) the signal is the home route — the handler is
a total function on gateway results, so no outcome escapes as an
exception. -/
theorem review_feedback_navigation_iff (interviewId : String) (res : FeedbackResult) :
    (handleGenerateFeedback interviewId res = feedbackRoute interviewId ↔
      res.success = true ∧ truthyStr res.feedbackId = true) ∧
    (¬(res.success = true ∧ truthyStr res.feedbackId = true) →
      handleGenerateFeedback interviewId res = "/") := by
  cases hb : res.success && truthyStr res.feedbackId with
  | false =>
    have hmain : handleGenerateFeedback interviewId res = "/" := by
      simp [handleGenerateFeedback, hb]
    refine ⟨?_, fun _ => hmain⟩
    rw [hmain]
    constructor
    · intro h
      exact absurd h.symm (feedbackRoute_ne_home interviewId)
    · rintro ⟨h1, h2⟩
      rw [h1, h2] at hb
      simp at hb
  | true =>
    have hand := hb
    rw [Bool.and_eq_true] at hand
    have hmain : handleGenerateFeedback interviewId res = feedbackRoute interviewId := by
      simp [handleGenerateFeedback, hb]
    exact ⟨by rw [hmain]; exact ⟨fun _ => hand, fun _ => rfl⟩, fun hc => absurd hand hc⟩

/-- Witness for `review_feedback_navigation_iff` at concrete gateway
outcomes. -/
theorem review_feedback_navigation_witness :
    handleGenerateFeedback "i1" { success := true, feedbackId := some "abc" } =
      feedbackRoute "i1" ∧
    handleGenerateFeedback "i1" { success := false, feedbackId := none } = "/" :=
  ⟨(review_feedback_navigation_iff "i1" { success := true, feedbackId := some "abc" }).1.mpr
      ⟨rfl, by decide⟩,
   (review_feedback_navigation_iff "i1" { success := false, feedbackId := none }).2
      (by decide)⟩

/-- **C7.** Invoking start in review mode opens the transport with the
`interviewer` persona configuration and a single `questions` variable; the
formatting prefixes each question with a dash and joins with newlines,
yielding the empty string when the question list is absent or empty. -/
theorem review_start_interviewer_and_questions (props : AgentProps)
    (workflowId : String) (sys : SysState) (h : props.type ≠ "generate") :
    (handleCall props workflowId sys).opens =
      sys.opens ++
        [ { target := VapiTarget.assistant interviewer
          , variableValues := [("questions", formattedQuestions props.questions)] } ] ∧
    formattedQuestions (some ["Tell me about yourself", "Why this role?"]) =
      "- Tell me about yourself\n- Why this role?" ∧
    formattedQuestions none = "" ∧
    formattedQuestions (some []) = "" := by
  refine ⟨?_, by decide, rfl, rfl⟩
  simp [handleCall, h]

/-- Witness for `review_start_interviewer_and_questions` with the
scenario props. -/
theorem review_start_witness :
    (handleCall reviewProps "wf-id" activeSys).opens =
      activeSys.opens ++
        [ { target := VapiTarget.assistant interviewer
          , variableValues := [("questions", formattedQuestions reviewProps.questions)] } ] :=
  (review_start_interviewer_and_questions reviewProps "wf-id" activeSys (by decide)).1

/-- **C2 counterexample.** `handleCall` has no state guard: invoked while
the status is `ACTIVE` (not Idle) it still mutates the state to
`CONNECTING` and opens a new transport session, refuting the claimed
no-op. -/
theorem start_not_guarded_cex :
    activeSys.agent.callStatus ≠ CallStatus.INACTIVE ∧
    (handleCall reviewProps "wf-id" activeSys).agent.callStatus = CallStatus.CONNECTING ∧
    (handleCall reviewProps "wf-id" activeSys).agent ≠ activeSys.agent ∧
    (handleCall reviewProps "wf-id" activeSys).opens.length = activeSys.opens.length + 1 := by
  refine ⟨by decide, ?_, ?_, ?_⟩ <;> simp [handleCall, activeSys, reviewProps, initialState]

/-- **C2 amended.** Calling start in any status (Idle or not) sets the
status to `CONNECTING` and opens exactly one new transport session,
leaving the transcript unchanged: there is no state check guarding
`handleCall`. -/
theorem start_always_connects_and_opens (props : AgentProps)
    (workflowId : String) (sys : SysState) :
    (handleCall props workflowId sys).agent.callStatus = CallStatus.CONNECTING ∧
    (handleCall props workflowId sys).opens.length = sys.opens.length + 1 ∧
    (handleCall props workflowId sys).agent.messages = sys.agent.messages := by
  by_cases h : props.type = "generate" <;> simp [handleCall, h]

/-- **C1 counterexample.** A backward status transition is reachable with
every action taken through an exposed UI control: after start,
call-start and stop the status is `FINISHED`, the render again shows the
Call button, and clicking it moves the same controller instance back to
`CONNECTING` — the trace `INACTIVE, CONNECTING, ACTIVE, FINISHED,
CONNECTING` is not monotone. -/
theorem status_backward_transition_cex :
    uiTraceOK initialState
      [Event.startCall, Event.callStart, Event.stopCall, Event.startCall] = true ∧
    statusTrace initialState
      [Event.startCall, Event.callStart, Event.stopCall, Event.startCall] =
      [CallStatus.INACTIVE, CallStatus.CONNECTING, CallStatus.ACTIVE,
       CallStatus.FINISHED, CallStatus.CONNECTING] ∧
    statusMonotoneB (statusTrace initialState
      [Event.startCall, Event.callStart, Event.stopCall, Event.startCall]) = false := by
  refine ⟨by decide, by decide, by decide⟩

lemma rank_step_le (s : AgentState) (e : Event)
    (h : protocolGuard s e = true) :
    rank s.callStatus ≤ rank (stepA s e).callStatus := by
  cases e with
  | startCall =>
    simp only [protocolGuard, beq_iff_eq] at h
    simp [stepA, h, rank]
  | stopCall =>
    simpa [stepA] using rank_le_three s.callStatus
  | callStart =>
    simp only [protocolGuard, bne_iff_ne, ne_eq] at h
    cases hc : s.callStatus <;> simp_all [stepA, onCallStart, rank]
  | callEnd =>
    simpa [stepA, onCallEnd] using rank_le_three s.callStatus
  | message m =>
    simp [stepA, onMessage_callStatus]
  | speechStart => simp [stepA, onSpeechStart]
  | speechEnd => simp [stepA, onSpeechEnd]
  | errorEvt => simp [stepA, onError]

lemma statusTrace_cons (s : AgentState) (e : Event) (es : List Event) :
    statusTrace s (e :: es) = s.callStatus :: statusTrace (stepA s e) es := rfl

lemma statusMonotoneB_cons_cons (a b : CallStatus) (l : List CallStatus) :
    statusMonotoneB (a :: b :: l) =
      ((rank a ≤ rank b : Bool) && statusMonotoneB (b :: l)) := rfl

/-- **C1 amended.** Along any trace that follows the intended protocol —
start is only invoked while the status is Idle, and the transport delivers
call-start only before the session has finished — the status sequence is
monotone along Idle→Connecting→Active→Finished. Outside that protocol the
UI still exposes the Call button after Finished, and clicking it produces
the backward transition Finished→Connecting exhibited above. -/
theorem status_monotone_under_protocol (es : List Event) (s : AgentState)
    (h : protocolOKB s es = true) :
    statusMonotoneB (statusTrace s es) = true := by
  induction es generalizing s with
  | nil => rfl
  | cons e rest ih =>
    have h' := h
    rw [show protocolOKB s (e :: rest) =
          (protocolGuard s e && protocolOKB (stepA s e) rest) from rfl,
        Bool.and_eq_true] at h'
    obtain ⟨hguard, hrest⟩ := h'
    rw [statusTrace_cons]
    have htail := ih (stepA s e) hrest
    have hhead := rank_step_le s e hguard
    rw [show statusTrace (stepA s e) rest =
          (stepA s e).callStatus :: (runStates (stepA s e) rest).map
            (fun t => t.callStatus) from rfl] at htail ⊢
    rw [statusMonotoneB_cons_cons, htail, Bool.and_true, decide_eq_true_eq]
    exact hhead

/-- Witness for `status_monotone_under_protocol` on a full protocol-abiding
session trace. -/
theorem status_monotone_witness :
    protocolOKB initialState
      [Event.startCall, Event.callStart, Event.message
        { type := "transcript", role := Role.user,
          transcriptType := "final", transcript := "Hi" },
       Event.callEnd] = true ∧
    statusMonotoneB (statusTrace initialState
      [Event.startCall, Event.callStart, Event.message
        { type := "transcript", role := Role.user,
          transcriptType := "final", transcript := "Hi" },
       Event.callEnd]) = true :=
  ⟨by decide,
   status_monotone_under_protocol
     [Event.startCall, Event.callStart, Event.message
       { type := "transcript", role := Role.user,
         transcriptType := "final", transcript := "Hi" },
      Event.callEnd] initialState (by decide)⟩

/-- **C4 counterexample.** The termination side effect can fire twice in
one session: the status becomes `FINISHED` exactly once (by stop), but a
late final transcript then changes the effect's dependency snapshot while
the status is still `FINISHED`, so the completion effect re-runs and
performs the side effect a second time. -/
theorem finished_effect_fires_twice_cex :
    statusTrace initialState
      [Event.startCall, Event.callStart,
       Event.message { type := "transcript", role := Role.user,
                       transcriptType := "final", transcript := "Hi" },
       Event.stopCall,
       Event.message { type := "transcript", role := Role.assistant,
                       transcriptType := "final", transcript := "Hello" }] =
      [CallStatus.INACTIVE, CallStatus.CONNECTING, CallStatus.ACTIVE,
       CallStatus.ACTIVE, CallStatus.FINISHED, CallStatus.FINISHED] ∧
    sideEffectFires initialState
      [Event.startCall, Event.callStart,
       Event.message { type := "transcript", role := Role.user,
                       transcriptType := "final", transcript := "Hi" },
       Event.stopCall,
       Event.message { type := "transcript", role := Role.assistant,
                       transcriptType := "final", transcript := "Hello" }] = 2 := by
  refine ⟨by decide, by decide⟩

lemma depsOf_eq_callStatus {s t : AgentState} (h : depsOf s = depsOf t) :
    s.callStatus = t.callStatus :=
  congrArg Prod.snd h

lemma quietAfterFinishB_cons (s : AgentState) (e : Event) (es : List Event) :
    quietAfterFinishB s (e :: es) =
      ((s.callStatus != CallStatus.FINISHED || depsOf (stepA s e) == depsOf s) &&
        quietAfterFinishB (stepA s e) es) := rfl

lemma firesAux_frozen (es : List Event) (s : AgentState)
    (hfin : s.callStatus = CallStatus.FINISHED)
    (hq : quietAfterFinishB s es = true) :
    firesAux (depsOf s) ((runStates s es).map depsOf) = 0 := by
  induction es generalizing s with
  | nil => rfl
  | cons e rest ih =>
    rw [quietAfterFinishB_cons, Bool.and_eq_true] at hq
    obtain ⟨hstep, hrest⟩ := hq
    have hne : (s.callStatus != CallStatus.FINISHED) = false := by
      simp [hfin]
    rw [hne, Bool.false_or, beq_iff_eq] at hstep
    have hfin' : (stepA s e).callStatus = CallStatus.FINISHED :=
      (depsOf_eq_callStatus hstep).trans hfin
    show firesAux (depsOf s) (depsOf (stepA s e) :: (runStates (stepA s e) rest).map depsOf) = 0
    rw [firesAux, if_pos hstep]
    have := ih (stepA s e) hfin' hrest
    rwa [hstep] at this

lemma firesAux_not_finished (es : List Event) (s : AgentState)
    (hnf : s.callStatus ≠ CallStatus.FINISHED)
    (hq : quietAfterFinishB s es = true) :
    firesAux (depsOf s) ((runStates s es).map depsOf) =
      (if (runStates s es).any (fun t => t.callStatus == CallStatus.FINISHED)
       then 1 else 0) := by
  induction es generalizing s with
  | nil => rfl
  | cons e rest ih =>
    rw [quietAfterFinishB_cons, Bool.and_eq_true] at hq
    obtain ⟨_, hrest⟩ := hq
    show firesAux (depsOf s) (depsOf (stepA s e) :: (runStates (stepA s e) rest).map depsOf) =
      (if (stepA s e :: runStates (stepA s e) rest).any
          (fun t => t.callStatus == CallStatus.FINISHED) then 1 else 0)
    by_cases hfin : (stepA s e).callStatus = CallStatus.FINISHED
    · have hdne : depsOf (stepA s e) ≠ depsOf s := by
        intro hcontra
        exact hnf ((depsOf_eq_callStatus hcontra).symm.trans hfin)
      rw [firesAux, if_neg hdne]
      have hzero := firesAux_frozen rest (stepA s e) hfin hrest
      rw [hzero]
      have hsnd : (depsOf (stepA s e)).2 = CallStatus.FINISHED := hfin
      rw [if_pos hsnd]
      have hany : (stepA s e :: runStates (stepA s e) rest).any
          (fun t => t.callStatus == CallStatus.FINISHED) = true := by
        simp [List.any_cons, hfin]
      rw [hany, if_pos rfl]
    · have ihs := ih (stepA s e) hfin hrest
      have hany : (stepA s e :: runStates (stepA s e) rest).any
            (fun t => t.callStatus == CallStatus.FINISHED) =
          (runStates (stepA s e) rest).any
            (fun t => t.callStatus == CallStatus.FINISHED) := by
        simp [List.any_cons, hfin]
      rw [hany]
      by_cases hdeq : depsOf (stepA s e) = depsOf s
      · rw [firesAux, if_pos hdeq]
        rw [← hdeq]
        exact ihs
      · rw [firesAux, if_neg hdeq]
        rw [if_neg (by simp [depsOf, hfin]), Nat.zero_add]
        exact ihs

/-- **C4 amended.** The termination side effect fires exactly once per
session provided no event delivered after the status reaches `FINISHED`
changes the completion effect's dependencies (no late final transcript, no
late call lifecycle event); it fires zero times if the session never
finishes. Without that proviso a late final transcript re-triggers the
state-equality-gated effect, as the counterexample shows. -/
theorem finished_effect_fires_once_when_quiet (es : List Event)
    (h : quietAfterFinishB initialState es = true) :
    sideEffectFires initialState es =
      (if (runStates initialState es).any
          (fun t => t.callStatus == CallStatus.FINISHED) then 1 else 0) := by
  have hnf : initialState.callStatus ≠ CallStatus.FINISHED := by decide
  rw [sideEffectFires, if_neg (by simp [depsOf, initialState]), Nat.zero_add]
  exact firesAux_not_finished es initialState hnf h

/-- Witness for `finished_effect_fires_once_when_quiet` on a session that
finishes and then only receives dependency-neutral events. -/
theorem finished_effect_fires_once_witness :
    quietAfterFinishB initialState
      [Event.startCall, Event.callStart, Event.stopCall, Event.speechEnd] = true ∧
    sideEffectFires initialState
      [Event.startCall, Event.callStart, Event.stopCall, Event.speechEnd] =
      (if (runStates initialState
            [Event.startCall, Event.callStart, Event.stopCall, Event.speechEnd]).any
          (fun t => t.callStatus == CallStatus.FINISHED) then 1 else 0) :=
  ⟨by decide,
   finished_effect_fires_once_when_quiet
     [Event.startCall, Event.callStart, Event.stopCall, Event.speechEnd] (by decide)⟩
